import Mathlib

/-!
Shallow embedding of the payment-orchestration backend (`src/main.py`):
the in-memory transaction store `transactions`, the Webpay endpoints
`create_payment` (`/api/create-payment`), `crear_pago_reserva`
(`/api/reserva/crear-pago`) and `confirm_payment` (`/api/confirm-payment`),
and the n8n notification dispatch performed inside `confirm_payment`.

External effects are made explicit: the processor's HTTP response is an
input (`ProcResp`), outbound processor calls are recorded in a `procCalled`
flag, notification dispatch attempts are recorded as a list (paired with a
boolean telling whether the delivery succeeded, mirroring the
`try/except` around `requests.post`), and `HTTPException` is an
`Except` error value carrying `status_code` and `detail`.
-/

namespace WebpayBackend

/-- The body of a `ReservationPaymentRequest` (pydantic model in `main.py`);
`data.dict()` is stored verbatim as `reserva_data`. -/
structure ReservaData where
  name : String
  email : String
  start_time : String
  end_time : String
  amount : Int
  service_name : String
  phone : Option String
deriving DecidableEq

/-- A parsed JSON body of a successful Webpay confirm (PUT) response:
`result.get("status")` (absent key gives `none`) plus an opaque tag `body`
standing for the rest of the JSON document. -/
structure ConfirmResult where
  status : Option String
  body : Nat
deriving DecidableEq

/-- One value of the `transactions` dict. `status` is `some "pending"` at
creation and becomes `result.get("status")` on confirmation (hence an
`Option`); `reserva_data`, `updated_at` and `details` model keys that may be
absent from the Python dict. -/
structure TransactionRecord where
  status : Option String
  amount : Int
  buy_order : String
  created_at : Nat
  reserva_data : Option ReservaData
  updated_at : Option Nat
  details : Option ConfirmResult
deriving DecidableEq

/-- The global `transactions` dict: token → record, insertion-ordered. -/
abbrev Store := List (String × TransactionRecord)

/-- Python dict read `transactions.get(token)` / `token in transactions`. -/
def dictGet : Store → String → Option TransactionRecord
  | [], _ => none
  | (k, v) :: rest, t => if k = t then some v else dictGet rest t

/-- Python dict write `transactions[token] = record`: replaces the binding
in place if the key is present, appends otherwise. -/
def dictPut : Store → String → TransactionRecord → Store
  | [], t, r => [(t, r)]
  | (k, v) :: rest, t, r => if k = t then (t, r) :: rest else (k, v) :: dictPut rest t r

/-- A raised `HTTPException`. -/
structure HTTPError where
  status_code : Nat
  detail : String
deriving DecidableEq

/-- Parsed JSON body of a successful Webpay initiation (POST) response. -/
structure InitResult where
  token : String
  url : String
deriving DecidableEq

/-- The processor's HTTP response, passed to each operation as an input:
`ok` is a 200 with parsed body, `err code text` is a non-200 with
`response.status_code = code` and `response.text = text`. -/
inductive ProcResp (α : Type) where
  | ok : α → ProcResp α
  | err : Nat → String → ProcResp α
deriving DecidableEq

instance {ε α : Type} [DecidableEq ε] [DecidableEq α] : DecidableEq (Except ε α) := fun a b =>
  match a, b with
  | .ok a, .ok b =>
      if h : a = b then isTrue (congrArg Except.ok h)
      else isFalse (fun hh => h (Except.ok.inj hh))
  | .ok _, .error _ => isFalse (fun hh => Except.noConfusion hh)
  | .error _, .ok _ => isFalse (fun hh => Except.noConfusion hh)
  | .error a, .error b =>
      if h : a = b then isTrue (congrArg Except.error h)
      else isFalse (fun hh => h (Except.error.inj hh))

/-- JSON returned by the two creation endpoints on success. -/
structure CreateReturn where
  success : Bool
  payment_url : String
  token : String
deriving DecidableEq

/-- Observable outcome of a creation endpoint: the HTTP result, the
`transactions` dict afterwards, and whether an outbound processor call
was made. -/
structure CreateOutcome where
  result : Except HTTPError CreateReturn
  store : Store
  procCalled : Bool
deriving DecidableEq

/-- `POST /api/create-payment` (`create_payment` in `main.py`); `now` is
`int(time.time())`, used for `buy_order = f"ORDER{int(time.time())}"`. -/
def create_payment (store : Store) (amount : Int) (resp : ProcResp InitResult)
    (now : Nat) : CreateOutcome :=
  if amount ≤ 0 then
    { result := .error ⟨400, "Monto inválido"⟩, store := store, procCalled := false }
  else
    match resp with
    | .err _ text =>
        { result := .error ⟨500, text⟩, store := store, procCalled := true }
    | .ok rd =>
        { result := .ok { success := true, payment_url := rd.url, token := rd.token },
          store := dictPut store rd.token
            { status := some "pending", amount := amount,
              buy_order := "ORDER" ++ toString now, created_at := now,
              reserva_data := none, updated_at := none, details := none },
          procCalled := true }

/-- `POST /api/reserva/crear-pago` (`crear_pago_reserva` in `main.py`).
Note: the source performs no validation of `data.amount`; it builds the
payload and calls the processor unconditionally. On a non-200 it raises
with the processor's own status code and `"Error con Transbank: "` plus
the raw body; on success it stores the record (with `reserva_data`) and
returns the redirect URL with `?token_ws=<token>` appended. -/
def crear_pago_reserva (store : Store) (d : ReservaData) (resp : ProcResp InitResult)
    (now : Nat) : CreateOutcome :=
  match resp with
  | .err code text =>
      { result := .error ⟨code, "Error con Transbank: " ++ text⟩,
        store := store, procCalled := true }
  | .ok rd =>
      { result := .ok { success := true,
                        payment_url := rd.url ++ "?token_ws=" ++ rd.token,
                        token := rd.token },
        store := dictPut store rd.token
          { status := some "pending", amount := d.amount,
            buy_order := "RES" ++ toString now, created_at := now,
            reserva_data := some d, updated_at := none, details := none },
        procCalled := true }

/-- The JSON body posted to `N8N_WEBHOOK_URL` inside `confirm_payment`. -/
structure NotificationPayload where
  status : String
  token : String
  buy_order : String
  nombre : String
  email : String
  startTime : String
  endTime : String
  service : String
  amount : Int
  from_number : String
  payment_details : ConfirmResult
deriving DecidableEq

/-- Builds the n8n webhook body from the stored record `r`, its
`reserva_data` and the processor confirm body (`main.py` lines 305-317). -/
def mkNotification (token : String) (r : TransactionRecord) (reserva : ReservaData)
    (result : ConfirmResult) : NotificationPayload :=
  { status := "paid", token := token, buy_order := r.buy_order,
    nombre := reserva.name, email := reserva.email,
    startTime := reserva.start_time, endTime := reserva.end_time,
    service := reserva.service_name, amount := r.amount,
    from_number := reserva.phone.getD "", payment_details := result }

/-- JSON returned by `confirm_payment` on success. On the idempotent path
`details` is the stored `details` key (absent → `none`, modelling the `{}`
default of `transactions[token].get("details", {})`); on the fresh path it
is the full processor body. -/
structure ConfirmReturn where
  success : Bool
  status : Option String
  details : Option ConfirmResult
deriving DecidableEq

/-- Observable outcome of `confirm_payment`: HTTP result, the store
afterwards, whether the processor was called, and the list of notification
dispatch attempts, each paired with whether delivery succeeded. -/
structure ConfirmOutcome where
  result : Except HTTPError ConfirmReturn
  store : Store
  procCalled : Bool
  sent : List (NotificationPayload × Bool)
deriving DecidableEq

/-- `confirm_payment` after the idempotency guard did not fire: the PUT to
the processor, the store update, and the conditional n8n notification
(`main.py` lines 278-326). `notifyOk` tells whether the `requests.post` to
n8n succeeds; the surrounding `try/except` swallows a failure. -/
def confirmAfterGuard (store : Store) (token : String) (resp : ProcResp ConfirmResult)
    (now : Nat) (notifyOk : Bool) : ConfirmOutcome :=
  match resp with
  | .err _ _ =>
      { result := .error ⟨500, "Error al confirmar transacción"⟩,
        store := store, procCalled := true, sent := [] }
  | .ok result =>
      let status := result.status
      let ret : ConfirmReturn :=
        { success := status == some "AUTHORIZED", status := status, details := some result }
      match dictGet store token with
      | some r =>
          let store2 := dictPut store token
            { r with status := status, updated_at := some now, details := some result }
          let sent :=
            if status = some "AUTHORIZED" then
              match r.reserva_data with
              | some reserva => [(mkNotification token r reserva result, notifyOk)]
              | none => []
            else []
          { result := .ok ret, store := store2, procCalled := true, sent := sent }
      | none =>
          { result := .ok ret, store := store, procCalled := true, sent := [] }

/-- `POST /api/confirm-payment` (`confirm_payment` in `main.py`): if the
token is known and its status is not `"pending"`, return the stored result
without calling the processor or notifying; otherwise fall through to
`confirmAfterGuard`. -/
def confirm_payment (store : Store) (token : String) (resp : ProcResp ConfirmResult)
    (now : Nat) (notifyOk : Bool) : ConfirmOutcome :=
  match dictGet store token with
  | some r =>
      if r.status ≠ some "pending" then
        { result := .ok { success := r.status == some "AUTHORIZED",
                          status := r.status, details := r.details },
          store := store, procCalled := false, sent := [] }
      else confirmAfterGuard store token resp now notifyOk
  | none => confirmAfterGuard store token resp now notifyOk

/-! ### Interleaving model of concurrent `confirm_payment` calls

FastAPI runs the synchronous `confirm_payment` handler in a thread pool and
the blocking `requests.put` releases the interpreter lock, so two requests
for the same token can interleave around it. A thread is modelled by a
program counter: `start` (about to run the idempotency guard, line 271),
`ready` (guard passed, about to issue the PUT), `got result` (processor
responded, about to run the store update and notification block, lines
295-320 — taken as a single atomic step, which is coarser than the source
and so only under-approximates the possible interleavings), and `done`.
The processor always answers 200 with body `result`. -/

inductive TState where
  | start : TState
  | ready : TState
  | got : ConfirmResult → TState
  | done : ConfirmReturn → TState
deriving DecidableEq

/-- One atomic step of a thread running `confirm_payment token` against the
shared store; returns the new store, the new thread state, and the
notification payloads dispatched during the step. -/
def confirmStep (token : String) (result : ConfirmResult) (now : Nat)
    (store : Store) (ts : TState) : Store × TState × List NotificationPayload :=
  match ts with
  | .start =>
      match dictGet store token with
      | some r =>
          if r.status ≠ some "pending" then
            (store, .done { success := r.status == some "AUTHORIZED",
                            status := r.status, details := r.details }, [])
          else (store, .ready, [])
      | none => (store, .ready, [])
  | .ready => (store, .got result, [])
  | .got res =>
      let status := res.status
      let ret : ConfirmReturn :=
        { success := status == some "AUTHORIZED", status := status, details := some res }
      match dictGet store token with
      | some r =>
          let store2 := dictPut store token
            { r with status := status, updated_at := some now, details := some res }
          let notifs :=
            if status = some "AUTHORIZED" then
              match r.reserva_data with
              | some reserva => [mkNotification token r reserva res]
              | none => []
            else []
          (store2, .done ret, notifs)
      | none => (store, .done ret, [])
  | .done ret => (store, .done ret, [])

/-- Shared state of two threads both confirming the same token. -/
structure RaceState where
  store : Store
  th1 : TState
  th2 : TState
  sent : List NotificationPayload
deriving DecidableEq

/-- Runs a schedule: `true` steps thread 1, `false` steps thread 2. -/
def runSched (token : String) (result : ConfirmResult) (now : Nat) :
    RaceState → List Bool → RaceState
  | st, [] => st
  | st, b :: rest =>
      let st2 :=
        if b then
          let (s2, t2, ns) := confirmStep token result now st.store st.th1
          { store := s2, th1 := t2, th2 := st.th2, sent := st.sent ++ ns }
        else
          let (s2, t2, ns) := confirmStep token result now st.store st.th2
          { store := s2, th1 := st.th1, th2 := t2, sent := st.sent ++ ns }
      runSched token result now st2 rest

/-! ### Concrete sample values (used by witnesses and counterexamples) -/

/-- A sample reservation request body. -/
def dSample : ReservaData :=
  { name := "Ana", email := "ana@mail.com", start_time := "2025-01-01T10:00",
    end_time := "2025-01-01T11:00", amount := 5000, service_name := "Corte",
    phone := some "+56911111111" }

/-- A sample reservation request body with a non-positive amount. -/
def dZero : ReservaData :=
  { name := "Ana", email := "ana@mail.com", start_time := "2025-01-01T10:00",
    end_time := "2025-01-01T11:00", amount := 0, service_name := "Corte",
    phone := none }

/-- A stored pending reservation record, as `crear_pago_reserva` creates it. -/
def recPending : TransactionRecord :=
  { status := some "pending", amount := 5000, buy_order := "RES100",
    created_at := 100, reserva_data := some dSample,
    updated_at := none, details := none }

/-- A store holding the pending reservation record under token `"T1"`. -/
def sSample : Store := [("T1", recPending)]

/-- A sample successful confirm body with status `"AUTHORIZED"`. -/
def authResult : ConfirmResult := { status := some "AUTHORIZED", body := 7 }

/-! ### Store lemmas -/

theorem dictGet_put_self (s : Store) (t : String) (r : TransactionRecord) :
    dictGet (dictPut s t r) t = some r := by
  induction s with
  | nil => simp [dictPut, dictGet]
  | cons kv rest ih =>
      obtain ⟨k, v⟩ := kv
      by_cases h : k = t
      · simp [dictPut, dictGet, h]
      · simp [dictPut, dictGet, h, ih]

theorem dictGet_put_ne (s : Store) (t t2 : String) (r : TransactionRecord)
    (h : t ≠ t2) : dictGet (dictPut s t r) t2 = dictGet s t2 := by
  induction s with
  | nil => simp [dictPut, dictGet, h]
  | cons kv rest ih =>
      obtain ⟨k, v⟩ := kv
      by_cases hk : k = t
      · subst hk
        simp [dictPut, dictGet, h]
      · simp [dictPut, dictGet, hk, ih]

theorem length_dictPut_new (s : Store) (t : String) (r : TransactionRecord)
    (h : dictGet s t = none) : (dictPut s t r).length = s.length + 1 := by
  induction s with
  | nil => simp [dictPut]
  | cons kv rest ih =>
      obtain ⟨k, v⟩ := kv
      by_cases hk : k = t
      · simp [dictGet, hk] at h
      · simp only [dictGet, if_neg hk] at h
        simp [dictPut, hk, ih h]

/-! ### Path lemmas for `confirm_payment` (shared helpers) -/

/-- Guard path: a known token with non-`pending` status returns the stored
result; no processor call, no store change, no notification. -/
theorem confirm_nonpending_eq (s : Store) (token : String) (r : TransactionRecord)
    (resp : ProcResp ConfirmResult) (n : Nat) (b : Bool)
    (hget : dictGet s token = some r) (hs : r.status ≠ some "pending") :
    confirm_payment s token resp n b =
      { result := .ok { success := r.status == some "AUTHORIZED",
                        status := r.status, details := r.details },
        store := s, procCalled := false, sent := [] } := by
  unfold confirm_payment
  rw [hget]
  simp [hs]

/-- Fresh path, processor success, token known: the stored record is
updated and the notification fires exactly when the new status is
`"AUTHORIZED"` and the record has a `reserva_data`. -/
theorem confirm_pending_ok_eq (s : Store) (token : String) (r : TransactionRecord)
    (result : ConfirmResult) (n : Nat) (b : Bool)
    (hget : dictGet s token = some r) (hpend : r.status = some "pending") :
    confirm_payment s token (.ok result) n b =
      { result := .ok { success := result.status == some "AUTHORIZED",
                        status := result.status, details := some result },
        store := dictPut s token
          { r with status := result.status, updated_at := some n, details := some result },
        procCalled := true,
        sent :=
          if result.status = some "AUTHORIZED" then
            match r.reserva_data with
            | some reserva => [(mkNotification token r reserva result, b)]
            | none => []
          else [] } := by
  unfold confirm_payment
  rw [hget]
  simp only [hpend, ne_eq, not_true_eq_false, if_false]
  unfold confirmAfterGuard
  rw [hget]

/-- Fresh path, processor error, token known and pending: a fixed 500 is
raised and the record is left untouched (still `pending`). -/
theorem confirm_pending_err_eq (s : Store) (token : String) (r : TransactionRecord)
    (code : Nat) (text : String) (n : Nat) (b : Bool)
    (hget : dictGet s token = some r) (hpend : r.status = some "pending") :
    confirm_payment s token (.err code text) n b =
      { result := .error ⟨500, "Error al confirmar transacción"⟩,
        store := s, procCalled := true, sent := [] } := by
  unfold confirm_payment
  rw [hget]
  simp only [hpend, ne_eq, not_true_eq_false, if_false]
  rfl

/-- Unknown token: the processor is still called, the store is unchanged,
no notification is possible. -/
theorem confirm_unknown_eq (s : Store) (token : String)
    (resp : ProcResp ConfirmResult) (n : Nat) (b : Bool)
    (hget : dictGet s token = none) :
    confirm_payment s token resp n b =
      match resp with
      | .ok result =>
          { result := .ok { success := result.status == some "AUTHORIZED",
                            status := result.status, details := some result },
            store := s, procCalled := true, sent := [] }
      | .err _ _ =>
          { result := .error ⟨500, "Error al confirmar transacción"⟩,
            store := s, procCalled := true, sent := [] } := by
  unfold confirm_payment
  rw [hget]
  cases resp with
  | ok result =>
      unfold confirmAfterGuard
      rw [hget]
  | err code text => rfl

/-- The store after any `confirm_payment` call is either unchanged or the
single update of the confirmed token; every other token reads the same. -/
theorem confirm_store_frame (s : Store) (t2 t : String)
    (resp : ProcResp ConfirmResult) (n : Nat) (b : Bool) (hne : t2 ≠ t) :
    dictGet (confirm_payment s t2 resp n b).store t = dictGet s t := by
  cases hg : dictGet s t2 with
  | none => rw [confirm_unknown_eq s t2 resp n b hg]; cases resp <;> rfl
  | some r =>
      by_cases hs : r.status = some "pending"
      · cases resp with
        | ok result =>
            rw [confirm_pending_ok_eq s t2 r result n b hg hs]
            exact dictGet_put_ne s t2 t _ hne
        | err code text => rw [confirm_pending_err_eq s t2 r code text n b hg hs]
      · rw [confirm_nonpending_eq s t2 r resp n b hg hs]

/-- Any `confirm_payment` call preserves the `reserva_data` of every stored
record (it may touch `status`, `updated_at`, `details` of one record only). -/
theorem confirm_preserves_reserva (s : Store) (t2 : String)
    (resp : ProcResp ConfirmResult) (n : Nat) (b : Bool)
    (t : String) (r : TransactionRecord) (hget : dictGet s t = some r) :
    ∃ r2, dictGet (confirm_payment s t2 resp n b).store t = some r2 ∧
      r2.reserva_data = r.reserva_data := by
  by_cases hne : t2 = t
  · subst hne
    cases hg : dictGet s t2 with
    | none => rw [hget] at hg; cases hg
    | some r0 =>
        rw [hget] at hg
        injection hg with hg
        subst hg
        by_cases hs : r.status = some "pending"
        · cases resp with
          | ok result =>
              rw [confirm_pending_ok_eq s t2 r result n b hget hs]
              exact ⟨_, dictGet_put_self s t2 _, rfl⟩
          | err code text =>
              exact ⟨r, by rw [confirm_pending_err_eq s t2 r code text n b hget hs]; exact hget, rfl⟩
        · exact ⟨r, by rw [confirm_nonpending_eq s t2 r resp n b hget hs]; exact hget, rfl⟩
  · exact ⟨r, by rw [confirm_store_frame s t2 t resp n b hne]; exact hget, rfl⟩

/-! ### Claim theorems -/

/-- C2 counterexample: at `amount = 0` (`dZero.amount = 0 ≤ 0`),
`crear_pago_reserva` does NOT fail with a client error: it calls the
processor, returns success, and stores a record — refuting the claim that
both creation endpoints reject non-positive amounts without a processor
call or a stored record. -/
theorem nonpositive_amount_reserva_cx :
    dZero.amount ≤ 0 ∧
    (crear_pago_reserva [] dZero (.ok ⟨"T1", "https://pay/T1"⟩) 100).procCalled = true ∧
    (crear_pago_reserva [] dZero (.ok ⟨"T1", "https://pay/T1"⟩) 100).result =
      .ok { success := true, payment_url := "https://pay/T1?token_ws=T1", token := "T1" } ∧
    dictGet (crear_pago_reserva [] dZero (.ok ⟨"T1", "https://pay/T1"⟩) 100).store "T1" ≠
      none := by decide

/-- C2 (amended): for every `amount ≤ 0`, `create_payment` fails with the
client error 400 "Monto inválido", makes no processor call and stores
nothing; `crear_pago_reserva`, however, performs no amount validation: it
always calls the processor, and on processor success it returns success and
stores a record carrying the non-positive amount. -/
theorem nonpositive_amount_validation (s : Store) (amount : Int)
    (resp : ProcResp InitResult) (now : Nat) (d : ReservaData) (tok url : String)
    (hle : amount ≤ 0) (_hd : d.amount ≤ 0) :
    create_payment s amount resp now =
      { result := .error ⟨400, "Monto inválido"⟩, store := s, procCalled := false } ∧
    (crear_pago_reserva s d resp now).procCalled = true ∧
    (crear_pago_reserva s d (.ok ⟨tok, url⟩) now).result =
      .ok { success := true, payment_url := url ++ "?token_ws=" ++ tok, token := tok } ∧
    dictGet (crear_pago_reserva s d (.ok ⟨tok, url⟩) now).store tok =
      some { status := some "pending", amount := d.amount,
             buy_order := "RES" ++ toString now, created_at := now,
             reserva_data := some d, updated_at := none, details := none } := by
  refine ⟨?_, ?_, rfl, ?_⟩
  · simp [create_payment, hle]
  · cases resp <;> rfl
  · exact dictGet_put_self s tok _

theorem nonpositive_amount_validation_witness :
    ((0 : Int) ≤ 0) ∧ dZero.amount ≤ 0 ∧
    (create_payment [] 0 (.ok ⟨"T1", "https://pay/T1"⟩) 100 =
      { result := .error ⟨400, "Monto inválido"⟩, store := [], procCalled := false } ∧
     (crear_pago_reserva [] dZero (.ok ⟨"T1", "https://pay/T1"⟩) 100).procCalled = true ∧
     (crear_pago_reserva [] dZero (.ok ⟨"T1", "https://pay/T1"⟩) 100).result =
       .ok { success := true, payment_url := "https://pay/T1" ++ "?token_ws=" ++ "T1",
             token := "T1" } ∧
     dictGet (crear_pago_reserva [] dZero (.ok ⟨"T1", "https://pay/T1"⟩) 100).store "T1" =
       some { status := some "pending", amount := dZero.amount,
              buy_order := "RES" ++ toString 100, created_at := 100,
              reserva_data := some dZero, updated_at := none, details := none }) :=
  ⟨by decide, by decide,
   nonpositive_amount_validation [] 0 (.ok ⟨"T1", "https://pay/T1"⟩) 100 dZero "T1"
     "https://pay/T1" (by decide) (by decide)⟩

/-- C3 counterexample: a confirm-time processor error is surfaced as the
fixed message 500 "Error al confirmar transacción"; the error is identical
for two different raw processor bodies, so the processor's raw error detail
is NOT preserved on the confirm path (it is preserved on the initiate
paths), refuting the claim as stated. -/
theorem processor_error_detail_cx :
    (confirm_payment sSample "T1" (.err 422 "processor-raw-body") 5 true).result =
      .error ⟨500, "Error al confirmar transacción"⟩ ∧
    (confirm_payment sSample "T1" (.err 422 "body-A") 5 true).result =
      (confirm_payment sSample "T1" (.err 503 "body-B") 5 true).result := by decide

/-- C3 (amended): an initiate-time processor error surfaces the processor's
raw body (`create_payment`: 500 with the raw text; `crear_pago_reserva`:
the processor's own status code with the raw text appended to a fixed
prefix) and stores no record; a confirm-time processor error raises a fixed
500 "Error al confirmar transacción" — WITHOUT the raw processor detail —
and leaves the existing record at its last known `pending` status, with no
partial update of the store. -/
theorem processor_error_propagation (s : Store) (amount : Int) (code : Nat)
    (text : String) (now n : Nat) (d : ReservaData) (token : String)
    (r : TransactionRecord) (b : Bool)
    (hpos : 0 < amount) (hget : dictGet s token = some r)
    (hpend : r.status = some "pending") :
    create_payment s amount (.err code text) now =
      { result := .error ⟨500, text⟩, store := s, procCalled := true } ∧
    crear_pago_reserva s d (.err code text) now =
      { result := .error ⟨code, "Error con Transbank: " ++ text⟩,
        store := s, procCalled := true } ∧
    confirm_payment s token (.err code text) n b =
      { result := .error ⟨500, "Error al confirmar transacción"⟩,
        store := s, procCalled := true, sent := [] } := by
  have hne : ¬ amount ≤ 0 := by omega
  exact ⟨by simp [create_payment, hne], rfl,
         confirm_pending_err_eq s token r code text n b hget hpend⟩

theorem processor_error_propagation_witness :
    (0 : Int) < 5000 ∧ dictGet sSample "T1" = some recPending ∧
    recPending.status = some "pending" ∧
    (create_payment sSample 5000 (.err 422 "boom") 100 =
      { result := .error ⟨500, "boom"⟩, store := sSample, procCalled := true } ∧
     crear_pago_reserva sSample dSample (.err 422 "boom") 100 =
      { result := .error ⟨422, "Error con Transbank: " ++ "boom"⟩,
        store := sSample, procCalled := true } ∧
     confirm_payment sSample "T1" (.err 422 "boom") 5 true =
      { result := .error ⟨500, "Error al confirmar transacción"⟩,
        store := sSample, procCalled := true, sent := [] }) :=
  ⟨by decide, by decide, by decide,
   processor_error_propagation sSample 5000 422 "boom" 100 5 dSample "T1" recPending true
     (by decide) (by decide) (by decide)⟩

/-- C7: for a token absent from the store, `confirm_payment` still calls
the processor, leaves the store unchanged, sends no notification, and on
processor success returns the processor's status and details with
`success = (status == "AUTHORIZED")`; on processor error it fails with the
fixed 500. -/
theorem confirm_unknown_token (s : Store) (token : String) (result : ConfirmResult)
    (code : Nat) (text : String) (n : Nat) (b : Bool)
    (hget : dictGet s token = none) :
    confirm_payment s token (.ok result) n b =
      { result := .ok { success := result.status == some "AUTHORIZED",
                        status := result.status, details := some result },
        store := s, procCalled := true, sent := [] } ∧
    confirm_payment s token (.err code text) n b =
      { result := .error ⟨500, "Error al confirmar transacción"⟩,
        store := s, procCalled := true, sent := [] } :=
  ⟨confirm_unknown_eq s token (.ok result) n b hget,
   confirm_unknown_eq s token (.err code text) n b hget⟩

theorem confirm_unknown_token_witness :
    dictGet [] "T9" = none ∧
    (confirm_payment [] "T9" (.ok authResult) 5 true =
      { result := .ok { success := authResult.status == some "AUTHORIZED",
                        status := authResult.status, details := some authResult },
        store := [], procCalled := true, sent := [] } ∧
     confirm_payment [] "T9" (.err 404 "nf") 5 true =
      { result := .error ⟨500, "Error al confirmar transacción"⟩,
        store := [], procCalled := true, sent := [] }) :=
  ⟨by decide, confirm_unknown_token [] "T9" authResult 404 "nf" 5 true (by decide)⟩

/-- C8: a successful `create_payment` with a fresh processor token returns
`{success := true, payment_url := url, token := tok}` with the processor's
url and token unchanged, and stores exactly one new record under that token
with status `"pending"` and the given amount, touching no other entry. -/
theorem create_payment_success (s : Store) (amount : Int) (tok url : String)
    (now : Nat) (hpos : 0 < amount) (hfresh : dictGet s tok = none) :
    create_payment s amount (.ok ⟨tok, url⟩) now =
      { result := .ok { success := true, payment_url := url, token := tok },
        store := dictPut s tok
          { status := some "pending", amount := amount,
            buy_order := "ORDER" ++ toString now, created_at := now,
            reserva_data := none, updated_at := none, details := none },
        procCalled := true } ∧
    dictGet (create_payment s amount (.ok ⟨tok, url⟩) now).store tok =
      some { status := some "pending", amount := amount,
             buy_order := "ORDER" ++ toString now, created_at := now,
             reserva_data := none, updated_at := none, details := none } ∧
    (create_payment s amount (.ok ⟨tok, url⟩) now).store.length = s.length + 1 ∧
    ∀ t, t ≠ tok → dictGet (create_payment s amount (.ok ⟨tok, url⟩) now).store t
      = dictGet s t := by
  have hne : ¬ amount ≤ 0 := by omega
  have h1 : create_payment s amount (.ok ⟨tok, url⟩) now =
      { result := .ok { success := true, payment_url := url, token := tok },
        store := dictPut s tok
          { status := some "pending", amount := amount,
            buy_order := "ORDER" ++ toString now, created_at := now,
            reserva_data := none, updated_at := none, details := none },
        procCalled := true } := by
    simp [create_payment, hne]
  refine ⟨h1, ?_, ?_, ?_⟩
  · rw [h1]; exact dictGet_put_self s tok _
  · rw [h1]; exact length_dictPut_new s tok _ hfresh
  · intro t ht; rw [h1]; exact dictGet_put_ne s tok t _ (Ne.symm ht)

theorem create_payment_success_witness :
    (0 : Int) < 5000 ∧ dictGet [] "T1" = none ∧
    (create_payment [] 5000 (.ok ⟨"T1", "https://pay/T1"⟩) 100 =
      { result := .ok { success := true, payment_url := "https://pay/T1", token := "T1" },
        store := dictPut [] "T1"
          { status := some "pending", amount := 5000,
            buy_order := "ORDER" ++ toString 100, created_at := 100,
            reserva_data := none, updated_at := none, details := none },
        procCalled := true } ∧
     dictGet (create_payment [] 5000 (.ok ⟨"T1", "https://pay/T1"⟩) 100).store "T1" =
      some { status := some "pending", amount := 5000,
             buy_order := "ORDER" ++ toString 100, created_at := 100,
             reserva_data := none, updated_at := none, details := none } ∧
     (create_payment [] 5000 (.ok ⟨"T1", "https://pay/T1"⟩) 100).store.length =
       ([] : Store).length + 1 ∧
     ∀ t, t ≠ "T1" →
       dictGet (create_payment [] 5000 (.ok ⟨"T1", "https://pay/T1"⟩) 100).store t
         = dictGet [] t) :=
  ⟨by decide, by decide,
   create_payment_success [] 5000 "T1" "https://pay/T1" 100 (by decide) (by decide)⟩

/-- C10: operations keyed by one token never modify the entry stored under
a different token — `confirm_payment` on `t2 ≠ t` leaves `t`'s entry
unchanged, and both creation endpoints, when the processor issues a token
`tok ≠ t`, leave `t`'s entry unchanged. -/
theorem cross_token_frame (s : Store) (t t2 tok url : String) (amount : Int)
    (d : ReservaData) (resp : ProcResp ConfirmResult) (now n : Nat) (b : Bool)
    (hne : t2 ≠ t) (htok : tok ≠ t) :
    dictGet (confirm_payment s t2 resp n b).store t = dictGet s t ∧
    dictGet (create_payment s amount (.ok ⟨tok, url⟩) now).store t = dictGet s t ∧
    dictGet (crear_pago_reserva s d (.ok ⟨tok, url⟩) now).store t = dictGet s t := by
  refine ⟨confirm_store_frame s t2 t resp n b hne, ?_, ?_⟩
  · by_cases ha : amount ≤ 0
    · simp [create_payment, ha]
    · simp only [create_payment, if_neg ha]
      exact dictGet_put_ne s tok t _ htok
  · exact dictGet_put_ne s tok t _ htok

theorem cross_token_frame_witness :
    "T2" ≠ "T1" ∧ "T9" ≠ "T1" ∧
    (dictGet (confirm_payment sSample "T2" (.ok authResult) 5 true).store "T1" =
      dictGet sSample "T1" ∧
     dictGet (create_payment sSample 5000 (.ok ⟨"T9", "https://pay/T9"⟩) 100).store "T1" =
      dictGet sSample "T1" ∧
     dictGet (crear_pago_reserva sSample dSample (.ok ⟨"T9", "https://pay/T9"⟩) 100).store "T1" =
      dictGet sSample "T1") :=
  ⟨by decide, by decide,
   cross_token_frame sSample "T1" "T2" "T9" "https://pay/T9" 5000 dSample
     (.ok authResult) 100 5 true (by decide) (by decide)⟩

/-- C1: once a stored record's status is non-`pending`, `confirm_payment`
returns the stored result with no processor call and no notification; and
calling `confirm_payment` twice in sequence, where the first call moves the
status to a terminal (non-`pending`) value, yields an identical
`{success, status, details}` result on the second call, with no second
processor call, no second notification, and at most one notification
dispatched across both calls. -/
theorem confirm_idempotent (s : Store) (token : String) (r : TransactionRecord)
    (result : ConfirmResult) (resp2 : ProcResp ConfirmResult)
    (n1 n2 : Nat) (b1 b2 : Bool)
    (hget : dictGet s token = some r) (hpend : r.status = some "pending")
    (hterm : result.status ≠ some "pending") :
    (∀ s2 t2 r2 (resp : ProcResp ConfirmResult) n b, dictGet s2 t2 = some r2 →
        r2.status ≠ some "pending" →
        confirm_payment s2 t2 resp n b =
          { result := .ok { success := r2.status == some "AUTHORIZED",
                            status := r2.status, details := r2.details },
            store := s2, procCalled := false, sent := [] }) ∧
    (confirm_payment (confirm_payment s token (.ok result) n1 b1).store token
        resp2 n2 b2).result = (confirm_payment s token (.ok result) n1 b1).result ∧
    (confirm_payment (confirm_payment s token (.ok result) n1 b1).store token
        resp2 n2 b2).procCalled = false ∧
    (confirm_payment (confirm_payment s token (.ok result) n1 b1).store token
        resp2 n2 b2).sent = [] ∧
    (confirm_payment s token (.ok result) n1 b1).sent.length ≤ 1 := by
  have hfirst := confirm_pending_ok_eq s token r result n1 b1 hget hpend
  have hget2 : dictGet (confirm_payment s token (.ok result) n1 b1).store token =
      some { r with status := result.status, updated_at := some n1,
                    details := some result } := by
    rw [hfirst]; exact dictGet_put_self s token _
  have hsecond := confirm_nonpending_eq _ token _ resp2 n2 b2 hget2 (by simpa using hterm)
  refine ⟨fun s2 t2 r2 resp n b hg hs => confirm_nonpending_eq s2 t2 r2 resp n b hg hs,
    ?_, ?_, ?_, ?_⟩
  · rw [hsecond, hfirst]
  · rw [hsecond]
  · rw [hsecond]
  · rw [hfirst]
    by_cases ha : result.status = some "AUTHORIZED" <;>
      rcases hr : r.reserva_data with _ | reserva <;> simp [ha, hr]

theorem confirm_idempotent_witness :
    dictGet sSample "T1" = some recPending ∧
    recPending.status = some "pending" ∧ authResult.status ≠ some "pending" ∧
    (confirm_payment (confirm_payment sSample "T1" (.ok authResult) 5 true).store "T1"
        (.err 1 "x") 6 true).result
      = (confirm_payment sSample "T1" (.ok authResult) 5 true).result ∧
    (confirm_payment (confirm_payment sSample "T1" (.ok authResult) 5 true).store "T1"
        (.err 1 "x") 6 true).sent = [] ∧
    (confirm_payment sSample "T1" (.ok authResult) 5 true).sent.length ≤ 1 :=
  ⟨by decide, by decide, by decide,
   (confirm_idempotent sSample "T1" recPending authResult (.err 1 "x") 5 6 true true
      (by decide) (by decide) (by decide)).2.1,
   (confirm_idempotent sSample "T1" recPending authResult (.err 1 "x") 5 6 true true
      (by decide) (by decide) (by decide)).2.2.2.1,
   (confirm_idempotent sSample "T1" recPending authResult (.err 1 "x") 5 6 true true
      (by decide) (by decide) (by decide)).2.2.2.2⟩

/-- C4: a pending record with a reservation payload, confirmed with
processor status `"AUTHORIZED"`, dispatches exactly one notification —
containing the literal `"paid"`, the original token, and the reservation's
name/email and the record's amount — and the call returns
`success = (status == "AUTHORIZED")` (hence `true`) with the processor's
status and full details. -/
theorem confirm_authorized_notifies (s : Store) (token : String)
    (r : TransactionRecord) (d : ReservaData) (result : ConfirmResult)
    (n : Nat) (b : Bool)
    (hget : dictGet s token = some r) (hpend : r.status = some "pending")
    (hres : r.reserva_data = some d) (hst : result.status = some "AUTHORIZED") :
    confirm_payment s token (.ok result) n b =
      { result := .ok { success := true, status := some "AUTHORIZED",
                        details := some result },
        store := dictPut s token
          { r with status := some "AUTHORIZED", updated_at := some n,
                   details := some result },
        procCalled := true,
        sent := [({ status := "paid", token := token, buy_order := r.buy_order,
                    nombre := d.name, email := d.email, startTime := d.start_time,
                    endTime := d.end_time, service := d.service_name,
                    amount := r.amount, from_number := d.phone.getD "",
                    payment_details := result }, b)] } ∧
    (confirm_payment s token (.ok result) n b).result =
      .ok { success := result.status == some "AUTHORIZED",
            status := result.status, details := some result } := by
  have h1 := confirm_pending_ok_eq s token r result n b hget hpend
  rw [hst] at h1
  constructor
  · rw [h1]
    simp [hres, mkNotification]
  · rw [hst, h1]

theorem confirm_authorized_notifies_witness :
    dictGet sSample "T1" = some recPending ∧
    recPending.status = some "pending" ∧
    recPending.reserva_data = some dSample ∧
    authResult.status = some "AUTHORIZED" ∧
    confirm_payment sSample "T1" (.ok authResult) 5 true =
      { result := .ok { success := true, status := some "AUTHORIZED",
                        details := some authResult },
        store := dictPut sSample "T1"
          { recPending with status := some "AUTHORIZED", updated_at := some 5,
                            details := some authResult },
        procCalled := true,
        sent := [({ status := "paid", token := "T1", buy_order := recPending.buy_order,
                    nombre := dSample.name, email := dSample.email,
                    startTime := dSample.start_time, endTime := dSample.end_time,
                    service := dSample.service_name, amount := recPending.amount,
                    from_number := dSample.phone.getD "",
                    payment_details := authResult }, true)] } :=
  ⟨by decide, by decide, by decide, by decide,
   (confirm_authorized_notifies sSample "T1" recPending dSample authResult 5 true
      (by decide) (by decide) (by decide) (by decide)).1⟩

/-- C5: a failed notification delivery is swallowed — the confirmation
result, the resulting store, and the list of dispatch attempts are the same
whether delivery succeeds or fails; the result still reflects the
processor's outcome and the updated status/details are still stored. -/
theorem notification_failure_isolated (s : Store) (token : String)
    (r : TransactionRecord) (result : ConfirmResult) (n : Nat)
    (hget : dictGet s token = some r) (hpend : r.status = some "pending") :
    (confirm_payment s token (.ok result) n false).result =
      (confirm_payment s token (.ok result) n true).result ∧
    (confirm_payment s token (.ok result) n false).store =
      (confirm_payment s token (.ok result) n true).store ∧
    (confirm_payment s token (.ok result) n false).sent.map Prod.fst =
      (confirm_payment s token (.ok result) n true).sent.map Prod.fst ∧
    (confirm_payment s token (.ok result) n false).result =
      .ok { success := result.status == some "AUTHORIZED",
            status := result.status, details := some result } ∧
    dictGet (confirm_payment s token (.ok result) n false).store token =
      some { r with status := result.status, updated_at := some n,
                    details := some result } := by
  have hF := confirm_pending_ok_eq s token r result n false hget hpend
  have hT := confirm_pending_ok_eq s token r result n true hget hpend
  refine ⟨?_, ?_, ?_, ?_, ?_⟩
  · rw [hF, hT]
  · rw [hF, hT]
  · rw [hF, hT]
    by_cases ha : result.status = some "AUTHORIZED" <;>
      rcases hr : r.reserva_data with _ | reserva <;> simp [ha, hr]
  · rw [hF]
  · rw [hF]; exact dictGet_put_self s token _

theorem notification_failure_isolated_witness :
    dictGet sSample "T1" = some recPending ∧
    recPending.status = some "pending" ∧
    (confirm_payment sSample "T1" (.ok authResult) 5 false).result =
      (confirm_payment sSample "T1" (.ok authResult) 5 true).result ∧
    (confirm_payment sSample "T1" (.ok authResult) 5 false).store =
      (confirm_payment sSample "T1" (.ok authResult) 5 true).store ∧
    (confirm_payment sSample "T1" (.ok authResult) 5 false).result =
      .ok { success := authResult.status == some "AUTHORIZED",
            status := authResult.status, details := some authResult } :=
  ⟨by decide, by decide,
   (notification_failure_isolated sSample "T1" recPending authResult 5
      (by decide) (by decide)).1,
   (notification_failure_isolated sSample "T1" recPending authResult 5
      (by decide) (by decide)).2.1,
   (notification_failure_isolated sSample "T1" recPending authResult 5
      (by decide) (by decide)).2.2.2.1⟩

/-- C6: a record created by `crear_pago_reserva` carries its reservation
payload; every `confirm_payment` call (on any token) preserves the
`reserva_data` of every stored record, in particular through the
create-then-confirm round trip; and creation under a distinct fresh token
leaves the record untouched — so a present `reserva_data` is never
cleared. -/
theorem reserva_payload_preserved (s : Store) (d : ReservaData) (tok url : String)
    (now n2 : Nat) (t t2 : String) (r : TransactionRecord) (amount : Int)
    (resp resp2 : ProcResp ConfirmResult) (b : Bool)
    (htok : tok ≠ t) (hget : dictGet s t = some r) :
    (∃ rec, dictGet (crear_pago_reserva s d (.ok ⟨tok, url⟩) now).store tok = some rec ∧
        rec.reserva_data = some d) ∧
    (∃ r2, dictGet (confirm_payment s t2 resp n2 b).store t = some r2 ∧
        r2.reserva_data = r.reserva_data) ∧
    (∃ rec2, dictGet (confirm_payment (crear_pago_reserva s d (.ok ⟨tok, url⟩) now).store
        tok resp2 n2 b).store tok = some rec2 ∧ rec2.reserva_data = some d) ∧
    dictGet (create_payment s amount (.ok ⟨tok, url⟩) now).store t = dictGet s t ∧
    dictGet (crear_pago_reserva s d (.ok ⟨tok, url⟩) now).store t = dictGet s t := by
  have hcreate : dictGet (crear_pago_reserva s d (.ok ⟨tok, url⟩) now).store tok =
      some { status := some "pending", amount := d.amount,
             buy_order := "RES" ++ toString now, created_at := now,
             reserva_data := some d, updated_at := none, details := none } :=
    dictGet_put_self s tok _
  refine ⟨⟨_, hcreate, rfl⟩, confirm_preserves_reserva s t2 resp n2 b t r hget,
    ?_, ?_, ?_⟩
  · obtain ⟨r2, hr2, hpayload⟩ :=
      confirm_preserves_reserva _ tok resp2 n2 b tok _ hcreate
    exact ⟨r2, hr2, by rw [hpayload]⟩
  · by_cases ha : amount ≤ 0
    · simp [create_payment, ha]
    · simp only [create_payment, if_neg ha]
      exact dictGet_put_ne s tok t _ htok
  · exact dictGet_put_ne s tok t _ htok

theorem reserva_payload_preserved_witness :
    "T9" ≠ "T1" ∧ dictGet sSample "T1" = some recPending ∧
    (∃ rec, dictGet (crear_pago_reserva sSample dSample
        (.ok ⟨"T9", "https://pay/T9"⟩) 100).store "T9" = some rec ∧
        rec.reserva_data = some dSample) ∧
    (∃ rec2, dictGet (confirm_payment
        (crear_pago_reserva sSample dSample (.ok ⟨"T9", "https://pay/T9"⟩) 100).store
        "T9" (.ok authResult) 5 true).store "T9" = some rec2 ∧
        rec2.reserva_data = some dSample) :=
  ⟨by decide, by decide,
   (reserva_payload_preserved sSample dSample "T9" "https://pay/T9" 100 5 "T1" "T2"
      recPending 5000 (.ok authResult) (.ok authResult) true (by decide) (by decide)).1,
   (reserva_payload_preserved sSample dSample "T9" "https://pay/T9" 100 5 "T1" "T2"
      recPending 5000 (.ok authResult) (.ok authResult) true (by decide) (by decide)).2.2.1⟩

/-- Faithfulness of the interleaving model: a thread run to completion with
no interleaving (three consecutive steps) produces exactly the store, the
dispatched payloads, and the result of `confirm_payment` under a successful
processor response. -/
theorem single_thread_run_eq_confirm (s : Store) (token : String)
    (result : ConfirmResult) (n : Nat) :
    (runSched token result n ⟨s, .start, .start, []⟩ [true, true, true]).store =
      (confirm_payment s token (.ok result) n true).store ∧
    (runSched token result n ⟨s, .start, .start, []⟩ [true, true, true]).sent =
      (confirm_payment s token (.ok result) n true).sent.map Prod.fst ∧
    ∃ ret, (runSched token result n ⟨s, .start, .start, []⟩ [true, true, true]).th1 =
      .done ret ∧ (confirm_payment s token (.ok result) n true).result = .ok ret := by
  cases hg : dictGet s token with
  | none =>
      rw [confirm_unknown_eq s token (.ok result) n true hg]
      refine ⟨?_, ?_, ⟨_, ?_, rfl⟩⟩ <;> simp [runSched, confirmStep, hg]
  | some r =>
      by_cases hs : r.status = some "pending"
      · rw [confirm_pending_ok_eq s token r result n true hg hs]
        refine ⟨?_, ?_, ⟨_, ?_, rfl⟩⟩
        · simp [runSched, confirmStep, hg, hs]
        · by_cases ha : result.status = some "AUTHORIZED" <;>
            rcases hr : r.reserva_data with _ | reserva <;>
              simp [runSched, confirmStep, hg, hs, ha, hr]
        · simp [runSched, confirmStep, hg, hs]
      · rw [confirm_nonpending_eq s token r (.ok result) n true hg hs]
        refine ⟨?_, ?_, ⟨_, ?_, rfl⟩⟩ <;> simp [runSched, confirmStep, hg, hs]

/-- C9 counterexample: two interleaved `confirm_payment` calls for the same
token (`T1`, held pending with a reservation payload) against a processor
that always answers `"AUTHORIZED"`: under the alternating schedule both
threads pass the idempotency check before either writes, and TWO
notifications are dispatched (the claim demands exactly one), though both
calls do return success. -/
theorem confirm_race_cx :
    recPending.status = some "pending" ∧
    (runSched "T1" authResult 5 ⟨sSample, .start, .start, []⟩
        [true, false, true, false, true, false]).sent.length = 2 ∧
    (runSched "T1" authResult 5 ⟨sSample, .start, .start, []⟩
        [true, false, true, false, true, false]).th1 =
      .done { success := true, status := some "AUTHORIZED", details := some authResult } ∧
    (runSched "T1" authResult 5 ⟨sSample, .start, .start, []⟩
        [true, false, true, false, true, false]).th2 =
      .done { success := true, status := some "AUTHORIZED",
              details := some authResult } := by decide

/-- C9 (amended): the source performs no synchronization around the
check-then-act sequence, and an interleaving exists in which both calls
observe `pending` and two notifications are dispatched (see the
counterexample); when the two `confirm_payment` calls for the same token
are serialized, exactly one notification is dispatched and both calls
return `success = true`. -/
theorem confirm_serialized_once (s : Store) (token : String)
    (r : TransactionRecord) (d : ReservaData) (result : ConfirmResult) (n : Nat)
    (hget : dictGet s token = some r) (hpend : r.status = some "pending")
    (hres : r.reserva_data = some d) (hst : result.status = some "AUTHORIZED") :
    (runSched token result n ⟨s, .start, .start, []⟩
        [true, true, true, false, false, false]).sent =
      [mkNotification token r d result] ∧
    (runSched token result n ⟨s, .start, .start, []⟩
        [true, true, true, false, false, false]).th1 =
      .done { success := true, status := some "AUTHORIZED", details := some result } ∧
    (runSched token result n ⟨s, .start, .start, []⟩
        [true, true, true, false, false, false]).th2 =
      .done { success := true, status := some "AUTHORIZED",
              details := some result } := by
  refine ⟨?_, ?_, ?_⟩ <;>
    simp [runSched, confirmStep, hget, hpend, hres, hst, dictGet_put_self]

theorem confirm_serialized_once_witness :
    dictGet sSample "T1" = some recPending ∧
    recPending.status = some "pending" ∧
    recPending.reserva_data = some dSample ∧
    authResult.status = some "AUTHORIZED" ∧
    ((runSched "T1" authResult 5 ⟨sSample, .start, .start, []⟩
        [true, true, true, false, false, false]).sent =
      [mkNotification "T1" recPending dSample authResult] ∧
     (runSched "T1" authResult 5 ⟨sSample, .start, .start, []⟩
        [true, true, true, false, false, false]).th1 =
      .done { success := true, status := some "AUTHORIZED", details := some authResult } ∧
     (runSched "T1" authResult 5 ⟨sSample, .start, .start, []⟩
        [true, true, true, false, false, false]).th2 =
      .done { success := true, status := some "AUTHORIZED",
              details := some authResult }) :=
  ⟨by decide, by decide, by decide, by decide,
   confirm_serialized_once sSample "T1" recPending dSample authResult 5
     (by decide) (by decide) (by decide) (by decide)⟩

end WebpayBackend
